import Mathlib

/-!
Verification development for the tariff-modeling service (`app.py`).

The Python source is shallowly embedded: pure computations become Lean
functions over `ℚ` (Python float arithmetic modelled exactly over the
rationals), dictionaries with optional keys become structures with `Option`
fields, and the two outbound HTTP calls become explicit parameters
(a function from the outgoing payload to an abstract outcome).  The
pseudo-random draws of `random.uniform` are passed in as an explicit
record of drawn values, used only where the source draws them.
-/

namespace TariffModeling

/-! ## Reference data (`HS_CODES` table, `app.py` lines 97-103) -/

structure HSInfo where
  description : String
  baseline_rate : ℚ
deriving DecidableEq

def HS_CODES : List (String × HSInfo) := [
  ("8517.62.00", ⟨"Machines for reception, conversion of voice, image", 0⟩),
  ("6109.10.00", ⟨"T-shirts, cotton", 33/2⟩),
  ("8471.30.01", ⟨"Portable computers", 0⟩),
  ("9503.00.00", ⟨"Tricycles, scooters, pedal cars, toys", 0⟩),
  ("8528.72.64", ⟨"Reception apparatus for TV", 5⟩)]

/-- `HS_CODES.get(hs_code, {"baseline_rate": 0.0}).get("baseline_rate", 0.0)`. -/
def hs_baseline (code : String) : ℚ :=
  match HS_CODES.find? (fun p => p.1 == code) with
  | some p => p.2.baseline_rate
  | none => 0

/-! ## Local tariff estimator (`calculate_tariff`, `app.py` lines 312-404) -/

/-- The values drawn by the four possible `random.uniform` calls. -/
structure Rand where
  uniform_0_5 : ℚ
  uniform_7p5_25 : ℚ
  uniform_0_10 : ℚ
  uniform_10_25 : ℚ
deriving DecidableEq

/-- Result dictionary of `calculate_tariff`.  The `total_tariff_rate` key of
the Python dict holds `effective_tariff_rate`; the de-minimis flag is stored
inside the `dutyCalculationSummary` list as in the source; exactly one of
the `spi_tariff_rate` / `ieepa_tariff_rate` keys is present. -/
structure TariffResult where
  vendor_country : String
  country_of_origin : String
  cost_per_unit : ℚ
  quantity : ℚ
  customs_value : ℚ
  baseline_tariff_rate : ℚ
  reciprocal_tariff_rate : ℚ
  chapter_301_tariff_rate : ℚ
  total_tariff_rate : ℚ
  duty_amount : ℚ
  total_cost : ℚ
  dutyCalculationSummary : List (String × String)
  spi_tariff_rate : Option ℚ
  ieepa_tariff_rate : Option ℚ
deriving DecidableEq

/-- `reciprocal_tariff` component: drawn only when `coo in ["CN","MX","CA"]`. -/
def reciprocal_component (coo : String) (r : Rand) : ℚ :=
  if coo = "CN" ∨ coo = "MX" ∨ coo = "CA" then r.uniform_0_5 else 0

/-- `chapter_301_tariff` component: drawn only when `coo == "CN"`. -/
def chapter_301_component (coo : String) (r : Rand) : ℚ :=
  if coo = "CN" then r.uniform_7p5_25 else 0

/-- `spi_tariff` component: drawn only for the preferential method when
`coo in ["MX","CA","VN"]`. -/
def spi_component (coo calculation_method : String) (r : Rand) : ℚ :=
  if calculation_method = "preferential" then
    (if coo = "MX" ∨ coo = "CA" ∨ coo = "VN" then r.uniform_0_10 else 0)
  else 0

/-- `ieepa_tariff` component: drawn only for the non-preferential method when
`coo in ["CN","RU"]`. -/
def ieepa_component (coo calculation_method : String) (r : Rand) : ℚ :=
  if calculation_method = "preferential" then 0
  else (if coo = "CN" ∨ coo = "RU" then r.uniform_10_25 else 0)

/-- `total_tariff_rate` as computed before the de-minimis check
(`app.py` lines 357-362). -/
def total_rate (hs_code coo calculation_method : String) (r : Rand) : ℚ :=
  hs_baseline hs_code + reciprocal_component coo r + chapter_301_component coo r +
    (if calculation_method = "preferential" then spi_component coo calculation_method r
     else ieepa_component coo calculation_method r)

def calculate_tariff (hs_code coo vendor_country : String) (cost_per_unit quantity : ℚ)
    (calculation_method : String) (r : Rand) : TariffResult :=
  let total := total_rate hs_code coo calculation_method r
  let customs_value := cost_per_unit * quantity
  let duty_amount := if customs_value < 800 then 0 else customs_value * (total / 100)
  let effective := if customs_value < 800 then 0 else total
  { vendor_country := vendor_country
    country_of_origin := coo
    cost_per_unit := cost_per_unit
    quantity := quantity
    customs_value := customs_value
    baseline_tariff_rate := hs_baseline hs_code
    reciprocal_tariff_rate := reciprocal_component coo r
    chapter_301_tariff_rate := chapter_301_component coo r
    total_tariff_rate := effective
    duty_amount := duty_amount
    total_cost := customs_value + duty_amount
    dutyCalculationSummary :=
      [("DUTY_DEMINIMIS_APPLIED", if customs_value < 800 then "true" else "false")]
    spi_tariff_rate := if calculation_method = "preferential" then some (spi_component coo calculation_method r) else none
    ieepa_tariff_rate := if calculation_method = "preferential" then none else some (ieepa_component coo calculation_method r) }

/-- Reads the de-minimis flag back out of the `dutyCalculationSummary` list. -/
def deminimisApplied (res : TariffResult) : Bool :=
  (((res.dutyCalculationSummary.find? (fun p => p.1 == "DUTY_DEMINIMIS_APPLIED")).map
    (fun p => p.2)).getD "false") == "true"

/-! ## HTTP Basic authentication (`auth_required`, `app.py` lines 28-43) and
the route table (every `@app.route` in `app.py`, each carrying the
`@auth_required` decorator). -/

structure AuthConfig where
  VALID_USER : String
  VALID_PASS : String
deriving DecidableEq

structure BasicCredentials where
  username : String
  password : String
deriving DecidableEq

/-- Behaviour of the `auth_required` decorator: 401 when no `Authorization`
header is present or when the credentials differ from the configured pair,
otherwise the wrapped handler runs and its status is returned. -/
def auth_required (cfg : AuthConfig) (auth : Option BasicCredentials)
    (handler_status : Nat) : Nat :=
  match auth with
  | none => 401
  | some a =>
    if a.username ≠ cfg.VALID_USER ∨ a.password ≠ cfg.VALID_PASS then 401
    else handler_status

structure Route where
  method : String
  path : String
  /-- whether the view function is wrapped by the `auth_required` decorator -/
  wrapped : Bool
deriving DecidableEq

/-- Every route registered in `app.py`, in source order; each one carries the
`@auth_required` decorator, including the health and reference endpoints. -/
def routes : List Route := [
  ⟨"GET", "/", true⟩,
  ⟨"POST", "/classify_hs", true⟩,
  ⟨"POST", "/calculate_vendor", true⟩,
  ⟨"POST", "/export_excel", true⟩,
  ⟨"GET", "/api/countries", true⟩,
  ⟨"GET", "/api/hs-codes", true⟩,
  ⟨"GET", "/api/hs-code/<code>", true⟩,
  ⟨"POST", "/api/calculate", true⟩,
  ⟨"GET", "/api/health", true⟩]

/-- Dispatching a request to a route: run the handler through the decorator
when the route is wrapped, untouched otherwise. -/
def dispatch (cfg : AuthConfig) (rt : Route) (auth : Option BasicCredentials)
    (handler_status : Nat) : Nat :=
  if rt.wrapped then auth_required cfg auth handler_status else handler_status

/-! ## External compliance adapter (`call_global_compliance_api`,
`app.py` lines 128-309) -/

/-- Relevant environment values read at module load. `AVALARA_COMPANY_ID` is
kept as the result of `int(...)` on the environment string: `none` models an
unset variable (where `int(None)` raises inside the payload construction). -/
structure AvalaraEnv where
  AVALARA_TOKEN : Option String
  AVALARA_COMPANY_ID : Option Int
deriving DecidableEq

/-- `hs_code.replace(".", "").replace(" ", "")`. -/
def strip_dots_spaces (s : String) : String :=
  String.mk (s.data.filter (fun c => c ≠ '.' ∧ c ≠ ' '))

/-- `hs_code.replace(".", "")` (used in the `calculate_vendor` handler). -/
def strip_dots (s : String) : String :=
  String.mk (s.data.filter (fun c => c ≠ '.'))

structure GCShipFrom where
  country : Option String
deriving DecidableEq

/-- The single line item of the outbound request document. `price` models
`str(cost_per_unit)` as the exact value. -/
structure GCLine where
  lineNumber : Nat
  quantity : ℚ
  preferenceProgramApplicable : Bool
  itemDescription : String
  classificationCountry : String
  hscode : String
  price : ℚ
  cooValue : Option String
deriving DecidableEq

/-- The outbound request document built at `app.py` lines 166-219. -/
structure GCPayload where
  id : String
  companyId : Int
  transactionDate : String
  currency : String
  sellerCode : String
  b2b : Bool
  shipFrom : GCShipFrom
  shipToCountry : String
  shipToRegion : String
  line : GCLine
  quoteType : String
  program : String
deriving DecidableEq

def build_gc_payload (companyId : Int) (hs_code : String) (coo vendor_country : Option String)
    (cost_per_unit quantity : ℚ) (description import_country : String)
    (spi_applicable : Bool) (import_date : String) : GCPayload :=
  { id := "TARIFF-MODEL-001"
    companyId := companyId
    transactionDate := import_date
    currency := "usd"
    sellerCode := "SELLER-001"
    b2b := true
    shipFrom := { country := vendor_country }
    shipToCountry := import_country.toLower
    shipToRegion := "ca"
    line := { lineNumber := 1
              quantity := quantity
              preferenceProgramApplicable := spi_applicable
              itemDescription := description
              classificationCountry := import_country.toUpper
              hscode := strip_dots_spaces hs_code
              price := cost_per_unit
              cooValue := coo }
    quoteType := "QUOTE_MAXIMUM"
    program := "Regular" }

/-- One entry of the `dutyGranularity` array of the upstream response; every
key may be absent (`.get` with a default in the source). -/
structure RespDuty where
  description : Option String
  rate : Option ℚ
  dutyType : Option String
deriving DecidableEq

structure CalcSummary where
  dutyGranularity : Option (List RespDuty)
deriving DecidableEq

structure QuoteLine where
  calculationSummary : Option CalcSummary
  hsCode : Option String
deriving DecidableEq

structure Quote where
  lines : Option (List QuoteLine)
deriving DecidableEq

structure GCEntry where
  quote : Option Quote
deriving DecidableEq

/-- The upstream JSON response, to the depth the source inspects. -/
structure ApiResponse where
  globalCompliance : Option (List GCEntry)
deriving DecidableEq

/-- The guarded dig for `dutyGranularity` at `app.py` lines 231-237: each
missing or empty level leaves the list empty. -/
def duty_granularity_of (resp : ApiResponse) : List RespDuty :=
  match resp.globalCompliance with
  | some (g :: _) =>
    match (g.quote.bind Quote.lines).getD [] with
    | l :: _ => (l.calculationSummary.bind CalcSummary.dutyGranularity).getD []
    | [] => []
  | _ => []

/-- Flattened duty line (`app.py` lines 240-251). -/
structure DutyLine where
  description : String
  rate : ℚ
  rate_percent : ℚ
  dutyType : String
deriving DecidableEq

def parse_duty (d : RespDuty) : DutyLine :=
  { description := d.description.getD "Unknown Duty"
    rate := d.rate.getD 0
    rate_percent := d.rate.getD 0 * 100
    dutyType := d.dutyType.getD "" }

/-- Outcome of the single outbound `requests.post`: a parsed 2xx body, or a
`RequestException` carrying an optional HTTP status and error body. -/
inductive HttpOutcome where
  | success (resp : ApiResponse)
  | requestError (status_code : Option Nat) (message : String) (body : Option String)
deriving DecidableEq

/-- The result dictionary of `call_global_compliance_api`.  Failure results
carry zero/empty duty data (those keys are absent in the Python dict; the
`success` flag discriminates). -/
structure GCResult where
  success : Bool
  duty_lines : List DutyLine
  total_duty_rate : ℚ
  total_duty_rate_percent : ℚ
  total_duty_amount : ℚ
  error : Option String
  status_code : Option Nat
  error_response : Option String
  request_payload : Option GCPayload
deriving DecidableEq

def call_global_compliance_api (env : AvalaraEnv) (hs_code : String)
    (coo vendor_country : Option String) (cost_per_unit quantity : ℚ)
    (description import_country : String) (spi_applicable : Bool)
    (import_date : String) (http : GCPayload → HttpOutcome) : GCResult :=
  match env.AVALARA_TOKEN with
  | none =>
    -- get_avalara_auth_header raises ValueError before the payload exists;
    -- the generic handler returns request_payload = None
    { success := false, duty_lines := [], total_duty_rate := 0,
      total_duty_rate_percent := 0, total_duty_amount := 0,
      error := some "Missing AVALARA_TOKEN in environment variables",
      status_code := none, error_response := none, request_payload := none }
  | some _ =>
    match env.AVALARA_COMPANY_ID with
    | none =>
      -- int(AVALARA_COMPANY_ID) raises while the payload dict literal is
      -- being built, so the name payload is never bound
      { success := false, duty_lines := [], total_duty_rate := 0,
        total_duty_rate_percent := 0, total_duty_amount := 0,
        error := some "int() argument must not be None",
        status_code := none, error_response := none, request_payload := none }
    | some cid =>
      let payload := build_gc_payload cid hs_code coo vendor_country cost_per_unit
        quantity description import_country spi_applicable import_date
      match http payload with
      | .success resp =>
        let dg := duty_granularity_of resp
        let total := (dg.map (fun d => d.rate.getD 0)).sum
        { success := true
          duty_lines := dg.map parse_duty
          total_duty_rate := total
          total_duty_rate_percent := total * 100
          total_duty_amount := quantity * cost_per_unit * total
          error := none, status_code := none, error_response := none
          request_payload := some payload }
      | .requestError sc msg body =>
        let msg2 := if sc = some 401 then
          "Authentication failed. Please verify AVALARA_TOKEN in .env file." else msg
        { success := false, duty_lines := [], total_duty_rate := 0,
          total_duty_rate_percent := 0, total_duty_amount := 0,
          error := some msg2, status_code := sc, error_response := body,
          request_payload := some payload }

/-! ## `/calculate_vendor` endpoint handler (`app.py` lines 594-641) -/

/-- The JSON body accepted by `/calculate_vendor`.  A `vendor_country` key
may be supplied by the client but is never read by the handler (the handler
sets the ship-from country to `coo`). -/
structure VendorCalcBody where
  description : String
  hs_code : String
  coo : Option String
  cost : ℚ
  quantity : ℚ
  import_country : Option String
  import_date : Option String
  spi_applicable : Bool
  vendor_country : Option String
deriving DecidableEq

/-- The handler body: extracts fields with their defaults, sets
`vendor_country = coo`, and calls the compliance adapter.  `today` stands for
`datetime.now().strftime` used as the `import_date` default. -/
def calculate_vendor (env : AvalaraEnv) (body : VendorCalcBody) (today : String)
    (http : GCPayload → HttpOutcome) : GCResult :=
  call_global_compliance_api env (strip_dots body.hs_code) body.coo body.coo
    body.cost body.quantity body.description (body.import_country.getD "US")
    body.spi_applicable (body.import_date.getD today) http

/-! ## HS classification adapter (`classify_hs`, `app.py` lines 418-591) -/

/-- The `data` object of the stage-1 (3CEOnline) classification response:
`hsCode` defaults to the empty string, `currentQuestionInteraction` may be
absent. -/
structure Stage1Data where
  hsCode : String
  currentQuestionInteraction : Option String
deriving DecidableEq

/-- Outcome of the stage-1 classification call: a transport error
(`requests.RequestException`), or a response with its HTTP status, raw text
and optional parsed `data` object. -/
inductive Stage1Result where
  | netError (msg : String)
  | resp (status : Nat) (text : String) (data : Option Stage1Data)
deriving DecidableEq

/-- Outcome of the stage-2 (Avalara quoting) call: a transport or non-2xx
error (`raise_for_status`), or a parsed 2xx body. -/
inductive AvalaraResult where
  | netError (msg : String)
  | resp (body : ApiResponse)
deriving DecidableEq

/-- HS6 extraction from the stage-1 response (`app.py` lines 469-485): the
raw `hsCode` is used only when it is non-empty and non-blank
(`hs6_code_raw and hs6_code_raw.strip()`). -/
def extract_hs6 (d : Option Stage1Data) : Option String :=
  match d with
  | none => none
  | some dd => if dd.hsCode ≠ "" ∧ dd.hsCode.trim ≠ "" then some dd.hsCode else none

/-- The chained-default dig
`avalara_json.get(..., [...])[0].get(...).get(..., [...])[0].get("hsCode")`
at `app.py` line 561.  A present-but-empty list raises `IndexError`
(`Except.error`), which the generic handler turns into a 500. -/
def classify_extract_hs (resp : ApiResponse) : Except String (Option String) :=
  match resp.globalCompliance with
  | none => .ok none
  | some [] => .error "list index out of range"
  | some (g :: _) =>
    match g.quote with
    | none => .ok none
    | some q =>
      match q.lines with
      | none => .ok none
      | some [] => .error "list index out of range"
      | some (l :: _) => .ok l.hsCode

/-- Python truthiness of an optional string: absent or empty is falsy. -/
def truthy_str (o : Option String) : Option String :=
  match o with
  | none => none
  | some s => if s = "" then none else some s

/-- The JSON body and HTTP status returned by the `/classify_hs` handler,
restricted to the keys it ever sets. -/
structure ClassifyResponse where
  status : Nat
  hs_code : Option String
  description : Option String
  verification_failed : Bool
  error : Option String
deriving DecidableEq

/-- The `/classify_hs` handler logic over abstract outcomes of its two
outbound calls. -/
def classify_hs (description : String) (verify_description : Bool)
    (stage1 : Stage1Result) (avalara : AvalaraResult) : ClassifyResponse :=
  if description = "" then
    { status := 400, hs_code := none, description := none,
      verification_failed := false, error := some "Description is required" }
  else
    match stage1 with
    | .netError msg =>
      { status := 500, hs_code := none, description := none,
        verification_failed := false, error := some ("Network error: " ++ msg) }
    | .resp st text d =>
      if st ≠ 200 then
        { status := 500, hs_code := none, description := none,
          verification_failed := false,
          error := some ("Classification API error: " ++ text) }
      else
        let hs6 := extract_hs6 d
        if hs6 = none ∧ verify_description = true then
          { status := 200, hs_code := none, description := none,
            verification_failed := true,
            error := some "Description insufficient for classification - may require more specific details or interactive classification" }
        else
          match avalara with
          | .netError msg =>
            { status := 500, hs_code := none, description := none,
              verification_failed := false,
              error := some ("Network error: " ++ msg) }
          | .resp body =>
            match classify_extract_hs body with
            | .error msg =>
              { status := 500, hs_code := none, description := none,
                verification_failed := false,
                error := some ("Unexpected error: " ++ msg) }
            | .ok raw =>
              match truthy_str raw with
              | some h =>
                { status := 200, hs_code := some h,
                  description := some "Classified via 3CEOnline + Avalara",
                  verification_failed := false, error := none }
              | none =>
                match hs6 with
                | some h6 =>
                  { status := 200, hs_code := some h6,
                    description := some "Classified via 3CEOnline (HS6)",
                    verification_failed := false, error := none }
                | none =>
                  { status := 500, hs_code := none, description := none,
                    verification_failed := false,
                    error := some "No HS code found from either classification or quoting API" }

/-! ## Report generator duty table (`export_excel`, `app.py` lines 644-863) -/

/-- The per-vendor record the export endpoint reads. -/
structure XVendor where
  name : Option String
  vendor_country : Option String
  coo : Option String
  cost : ℚ
  quantity : ℚ
  duty_lines : List DutyLine
  total_duty_rate : Option String
  total_duty_amount : ℚ
deriving DecidableEq

/-- Banker-rounding of a rational to an integer (ties to even), matching the
rounding used by Python string formatting. -/
def roundHalfEven (q : ℚ) : ℤ :=
  if q - ⌊q⌋ < 1/2 then ⌊q⌋
  else if q - ⌊q⌋ > 1/2 then ⌊q⌋ + 1
  else if ⌊q⌋ % 2 = 0 then ⌊q⌋ else ⌊q⌋ + 1

def pad2 (k : Nat) : String :=
  if k < 10 then "0" ++ toString k else toString k

/-- Two-decimal rendering of a rational, as in the format `:.2f`. -/
def fmt2 (q : ℚ) : String :=
  let n := roundHalfEven (q * 100)
  (if n < 0 then "-" else "") ++ toString (n.natAbs / 100) ++ "." ++ pad2 (n.natAbs % 100)

/-- `all_duty_types` (`app.py` lines 717-722): the set of duty-line
descriptions over all vendors, returned sorted ascending. -/
def all_duty_types (vendors : List XVendor) : List String :=
  ((vendors.flatMap (fun v => v.duty_lines.map (fun dl => dl.description))).dedup).insertionSort (· ≤ ·)

/-- The cell written for one vendor in the row of one duty type
(`app.py` lines 776-786): the first matching duty line formatted as a
percentage, else the placeholder. -/
def duty_cell (v : XVendor) (duty_type : String) : String :=
  match v.duty_lines.find? (fun dl => dl.description == duty_type) with
  | some dl => fmt2 dl.rate_percent ++ "%"
  | none => "N/A"

/-- The duty-breakdown section of the vendor-comparison table: one row per
duty type, one cell per vendor. -/
def duty_breakdown_rows (vendors : List XVendor) : List (String × List String) :=
  (all_duty_types vendors).map (fun dt => (dt, vendors.map (fun v => duty_cell v dt)))

/-! ## Theorems -/

/-- C1: the claim says the health endpoint (GET /api/health) and the static
reference endpoints are reachable without credentials (no 401 for a request
lacking an Authorization header).  This is false: as registered, both
GET /api/health and GET /api/countries are wrapped by the `auth_required`
decorator and a request with no Authorization header receives 401. -/
theorem C1_counterexample :
    (⟨"GET", "/api/health", true⟩ : Route) ∈ routes ∧
    dispatch ⟨"admin", "password"⟩ ⟨"GET", "/api/health", true⟩ none 200 = 401 ∧
    (⟨"GET", "/api/countries", true⟩ : Route) ∈ routes ∧
    dispatch ⟨"admin", "password"⟩ ⟨"GET", "/api/countries", true⟩ none 200 = 401 := by
  decide

/-- C1 (amended): every HTTP endpoint of the application, including
GET /api/health, GET /api/countries, GET /api/hs-codes and
GET /api/hs-code/(code), is wrapped by the `auth_required` decorator, and a
request lacking an Authorization header receives 401 on every endpoint. -/
theorem C1_all_routes_require_auth (rt : Route) (hrt : rt ∈ routes)
    (cfg : AuthConfig) (handler_status : Nat) :
    rt.wrapped = true ∧ dispatch cfg rt none handler_status = 401 := by
  fin_cases hrt <;> exact ⟨rfl, rfl⟩

theorem C1_all_routes_require_auth_witness :
    (⟨"GET", "/api/health", true⟩ : Route).wrapped = true ∧
    dispatch ⟨"admin", "password"⟩ ⟨"GET", "/api/health", true⟩ none 200 = 401 :=
  C1_all_routes_require_auth ⟨"GET", "/api/health", true⟩ (by decide)
    ⟨"admin", "password"⟩ 200

/-- C2: at the de-minimis boundary of the local estimator, a customs value of
799.99 gives deminimisApplied = true, a zero duty amount and a zero effective
rate, while a customs value of 800.00 gives deminimisApplied = false, a duty
amount of customsValue times totalRate over 100, and an effective rate equal
to the total rate. -/
theorem C2_deminimis_boundary (hs coo vc method : String) (r : Rand)
    (c1 q1 c2 q2 : ℚ) (h1 : c1 * q1 = 79999/100) (h2 : c2 * q2 = 800) :
    (deminimisApplied (calculate_tariff hs coo vc c1 q1 method r) = true ∧
     (calculate_tariff hs coo vc c1 q1 method r).duty_amount = 0 ∧
     (calculate_tariff hs coo vc c1 q1 method r).total_tariff_rate = 0) ∧
    (deminimisApplied (calculate_tariff hs coo vc c2 q2 method r) = false ∧
     (calculate_tariff hs coo vc c2 q2 method r).duty_amount =
       (c2 * q2) * (total_rate hs coo method r / 100) ∧
     (calculate_tariff hs coo vc c2 q2 method r).total_tariff_rate =
       total_rate hs coo method r) := by
  have hlt : (79999 : ℚ)/100 < 800 := by norm_num
  have hnlt : ¬ ((800 : ℚ) < 800) := by norm_num
  constructor
  · simp [calculate_tariff, deminimisApplied, h1, hlt]
  · simp [calculate_tariff, deminimisApplied, h2, hnlt]

theorem C2_deminimis_boundary_witness :
    (deminimisApplied (calculate_tariff "8517.62.00" "US" "US" (79999/100) 1 "standard" ⟨0, 0, 0, 0⟩) = true ∧
     (calculate_tariff "8517.62.00" "US" "US" (79999/100) 1 "standard" ⟨0, 0, 0, 0⟩).duty_amount = 0 ∧
     (calculate_tariff "8517.62.00" "US" "US" (79999/100) 1 "standard" ⟨0, 0, 0, 0⟩).total_tariff_rate = 0) ∧
    (deminimisApplied (calculate_tariff "8517.62.00" "US" "US" 800 1 "standard" ⟨0, 0, 0, 0⟩) = false ∧
     (calculate_tariff "8517.62.00" "US" "US" 800 1 "standard" ⟨0, 0, 0, 0⟩).duty_amount =
       (800 * 1) * (total_rate "8517.62.00" "US" "standard" ⟨0, 0, 0, 0⟩ / 100) ∧
     (calculate_tariff "8517.62.00" "US" "US" 800 1 "standard" ⟨0, 0, 0, 0⟩).total_tariff_rate =
       total_rate "8517.62.00" "US" "standard" ⟨0, 0, 0, 0⟩) :=
  C2_deminimis_boundary "8517.62.00" "US" "US" "standard" ⟨0, 0, 0, 0⟩
    (79999/100) 1 800 1 (mul_one _) (mul_one _)

/-- C3: the claim says that for a country of origin outside CN, MX, CA, VN,
RU, the surcharge components of the result are 0 (true) and the total tariff
rate of the result equals the baseline rate from the HS table.  The second
part is false: the `total_tariff_rate` key of the result dict holds the
post-de-minimis effective rate, so with hs 6109.10.00 (baseline 16.5), coo
DE, cost 100 and quantity 1 the customs value 100 is below 800 and the
result carries a total tariff rate of 0, not 16.5. -/
theorem C3_counterexample :
    "DE" ∉ (["CN", "MX", "CA", "VN", "RU"] : List String) ∧
    (calculate_tariff "6109.10.00" "DE" "DE" 100 1 "standard" ⟨0, 0, 0, 0⟩).reciprocal_tariff_rate = 0 ∧
    (calculate_tariff "6109.10.00" "DE" "DE" 100 1 "standard" ⟨0, 0, 0, 0⟩).chapter_301_tariff_rate = 0 ∧
    (calculate_tariff "6109.10.00" "DE" "DE" 100 1 "standard" ⟨0, 0, 0, 0⟩).spi_tariff_rate = none ∧
    (calculate_tariff "6109.10.00" "DE" "DE" 100 1 "standard" ⟨0, 0, 0, 0⟩).ieepa_tariff_rate = some 0 ∧
    hs_baseline "6109.10.00" = 33/2 ∧
    (calculate_tariff "6109.10.00" "DE" "DE" 100 1 "standard" ⟨0, 0, 0, 0⟩).total_tariff_rate = 0 ∧
    (calculate_tariff "6109.10.00" "DE" "DE" 100 1 "standard" ⟨0, 0, 0, 0⟩).total_tariff_rate ≠
      hs_baseline "6109.10.00" := by
  have hb : hs_baseline "6109.10.00" = 33/2 := by simp [hs_baseline, HS_CODES, List.find?]
  have hlt : (100 : ℚ) * 1 < 800 := by norm_num
  refine ⟨by decide, ?_, ?_, ?_, ?_, hb, ?_, ?_⟩ <;>
    simp [calculate_tariff, reciprocal_component, chapter_301_component,
      ieepa_component, hlt, hb] <;> norm_num

/-- C3 (amended): for a country of origin outside CN, MX, CA, VN, RU, the
reciprocal, chapter-301, SPI and IEEPA components of the result are all
exactly 0, and the total rate computed before the de-minimis check equals the
baseline rate from the HS table (0 for unknown codes); the result dict's
`total_tariff_rate` key holds that baseline only when the customs value is at
least 800, and holds 0 when the de-minimis exemption applies. -/
theorem C3_outside_special_countries (hs coo vc method : String) (r : Rand)
    (c q : ℚ) (h : coo ∉ (["CN", "MX", "CA", "VN", "RU"] : List String)) :
    (calculate_tariff hs coo vc c q method r).reciprocal_tariff_rate = 0 ∧
    (calculate_tariff hs coo vc c q method r).chapter_301_tariff_rate = 0 ∧
    ((calculate_tariff hs coo vc c q method r).spi_tariff_rate).getD 0 = 0 ∧
    ((calculate_tariff hs coo vc c q method r).ieepa_tariff_rate).getD 0 = 0 ∧
    total_rate hs coo method r = hs_baseline hs ∧
    (c * q < 800 → (calculate_tariff hs coo vc c q method r).total_tariff_rate = 0) ∧
    (¬ c * q < 800 →
      (calculate_tariff hs coo vc c q method r).total_tariff_rate = hs_baseline hs) := by
  simp only [List.mem_cons, List.not_mem_nil, or_false, not_or] at h
  obtain ⟨h1, h2, h3, h4, h5⟩ := h
  by_cases hm : method = "preferential" <;>
    by_cases hcv : c * q < 800 <;>
      simp [calculate_tariff, total_rate, reciprocal_component, chapter_301_component,
        spi_component, ieepa_component, hm, hcv, h1, h2, h3, h4, h5]

theorem C3_outside_special_countries_witness :
    (calculate_tariff "8517.62.00" "DE" "DE" 100 5 "standard" ⟨0, 0, 0, 0⟩).reciprocal_tariff_rate = 0 ∧
    (calculate_tariff "8517.62.00" "DE" "DE" 100 5 "standard" ⟨0, 0, 0, 0⟩).chapter_301_tariff_rate = 0 ∧
    ((calculate_tariff "8517.62.00" "DE" "DE" 100 5 "standard" ⟨0, 0, 0, 0⟩).spi_tariff_rate).getD 0 = 0 ∧
    ((calculate_tariff "8517.62.00" "DE" "DE" 100 5 "standard" ⟨0, 0, 0, 0⟩).ieepa_tariff_rate).getD 0 = 0 ∧
    total_rate "8517.62.00" "DE" "standard" ⟨0, 0, 0, 0⟩ = hs_baseline "8517.62.00" ∧
    ((100 : ℚ) * 5 < 800 →
      (calculate_tariff "8517.62.00" "DE" "DE" 100 5 "standard" ⟨0, 0, 0, 0⟩).total_tariff_rate = 0) ∧
    (¬ (100 : ℚ) * 5 < 800 →
      (calculate_tariff "8517.62.00" "DE" "DE" 100 5 "standard" ⟨0, 0, 0, 0⟩).total_tariff_rate =
        hs_baseline "8517.62.00") :=
  C3_outside_special_countries "8517.62.00" "DE" "DE" "standard" ⟨0, 0, 0, 0⟩ 100 5 (by decide)

/-- C9: every result of the local estimator carries exactly one of the
`spi_tariff_rate` / `ieepa_tariff_rate` keys: the former is present iff the
calculation method is "preferential", the latter iff it is not; never both
and never neither. -/
theorem C9_exactly_one_method_field (hs coo vc method : String) (c q : ℚ) (r : Rand) :
    ((calculate_tariff hs coo vc c q method r).spi_tariff_rate.isSome = true ↔
      method = "preferential") ∧
    ((calculate_tariff hs coo vc c q method r).ieepa_tariff_rate.isSome = true ↔
      ¬ method = "preferential") ∧
    ¬ ((calculate_tariff hs coo vc c q method r).spi_tariff_rate.isSome = true ∧
       (calculate_tariff hs coo vc c q method r).ieepa_tariff_rate.isSome = true) ∧
    ((calculate_tariff hs coo vc c q method r).spi_tariff_rate.isSome = true ∨
     (calculate_tariff hs coo vc c q method r).ieepa_tariff_rate.isSome = true) := by
  by_cases hm : method = "preferential" <;> simp [calculate_tariff, hm]

/-- C4: on a successful upstream response, the compliance adapter's total
duty rate is the sum of all rate fields of the nested duty-breakdown array
and the total duty amount is quantity times cost times that rate; in
particular two duty-breakdown entries with rates 1/20 and 1/10 give a total
rate of exactly 3/20 and an amount of quantity times cost times 3/20. -/
theorem C4_total_duty_rate_sum (env : AvalaraEnv) (tok : String) (cid : Int)
    (hs_code : String) (coo vendor_country : Option String) (cost qty : ℚ)
    (description import_country : String) (spi : Bool) (import_date : String)
    (resp : ApiResponse) (http : GCPayload → HttpOutcome)
    (htok : env.AVALARA_TOKEN = some tok) (hcid : env.AVALARA_COMPANY_ID = some cid)
    (hhttp : ∀ p, http p = .success resp) :
    (call_global_compliance_api env hs_code coo vendor_country cost qty description
        import_country spi import_date http).success = true ∧
    (call_global_compliance_api env hs_code coo vendor_country cost qty description
        import_country spi import_date http).total_duty_rate =
      ((duty_granularity_of resp).map (fun d => d.rate.getD 0)).sum ∧
    (call_global_compliance_api env hs_code coo vendor_country cost qty description
        import_country spi import_date http).total_duty_amount =
      qty * cost * (call_global_compliance_api env hs_code coo vendor_country cost qty
        description import_country spi import_date http).total_duty_rate ∧
    (∀ d1 t1 d2 t2, duty_granularity_of resp = [⟨d1, some (1/20), t1⟩, ⟨d2, some (1/10), t2⟩] →
      (call_global_compliance_api env hs_code coo vendor_country cost qty description
          import_country spi import_date http).total_duty_rate = 3/20 ∧
      (call_global_compliance_api env hs_code coo vendor_country cost qty description
          import_country spi import_date http).total_duty_amount = qty * cost * (3/20)) := by
  obtain ⟨tk, ci⟩ := env
  cases htok
  cases hcid
  refine ⟨?_, ?_, ?_, ?_⟩
  · simp [call_global_compliance_api, hhttp]
  · simp [call_global_compliance_api, hhttp]
  · simp [call_global_compliance_api, hhttp]
  · intro d1 t1 d2 t2 hdg
    refine ⟨?_, ?_⟩ <;> · simp [call_global_compliance_api, hhttp, hdg]; norm_num

theorem C4_total_duty_rate_sum_witness :
    (call_global_compliance_api ⟨some "token", some 123⟩ "8517.62.00" (some "CN") (some "CN")
        100 5 "phone parts" "US" false "2026-01-01"
        (fun _ => .success ⟨some [⟨some ⟨some [⟨some ⟨some [⟨some "Base Duty", some (1/20), some "duty"⟩,
          ⟨some "Section 301", some (1/10), some "duty"⟩]⟩, none⟩]⟩⟩]⟩)).success = true ∧
    (call_global_compliance_api ⟨some "token", some 123⟩ "8517.62.00" (some "CN") (some "CN")
        100 5 "phone parts" "US" false "2026-01-01"
        (fun _ => .success ⟨some [⟨some ⟨some [⟨some ⟨some [⟨some "Base Duty", some (1/20), some "duty"⟩,
          ⟨some "Section 301", some (1/10), some "duty"⟩]⟩, none⟩]⟩⟩]⟩)).total_duty_rate =
      ((duty_granularity_of ⟨some [⟨some ⟨some [⟨some ⟨some [⟨some "Base Duty", some (1/20), some "duty"⟩,
          ⟨some "Section 301", some (1/10), some "duty"⟩]⟩, none⟩]⟩⟩]⟩).map (fun d => d.rate.getD 0)).sum ∧
    (call_global_compliance_api ⟨some "token", some 123⟩ "8517.62.00" (some "CN") (some "CN")
        100 5 "phone parts" "US" false "2026-01-01"
        (fun _ => .success ⟨some [⟨some ⟨some [⟨some ⟨some [⟨some "Base Duty", some (1/20), some "duty"⟩,
          ⟨some "Section 301", some (1/10), some "duty"⟩]⟩, none⟩]⟩⟩]⟩)).total_duty_amount =
      5 * 100 * (call_global_compliance_api ⟨some "token", some 123⟩ "8517.62.00" (some "CN") (some "CN")
        100 5 "phone parts" "US" false "2026-01-01"
        (fun _ => .success ⟨some [⟨some ⟨some [⟨some ⟨some [⟨some "Base Duty", some (1/20), some "duty"⟩,
          ⟨some "Section 301", some (1/10), some "duty"⟩]⟩, none⟩]⟩⟩]⟩)).total_duty_rate ∧
    (∀ d1 t1 d2 t2, duty_granularity_of ⟨some [⟨some ⟨some [⟨some ⟨some [⟨some "Base Duty", some (1/20), some "duty"⟩,
          ⟨some "Section 301", some (1/10), some "duty"⟩]⟩, none⟩]⟩⟩]⟩ =
        [⟨d1, some (1/20), t1⟩, ⟨d2, some (1/10), t2⟩] →
      (call_global_compliance_api ⟨some "token", some 123⟩ "8517.62.00" (some "CN") (some "CN")
          100 5 "phone parts" "US" false "2026-01-01"
          (fun _ => .success ⟨some [⟨some ⟨some [⟨some ⟨some [⟨some "Base Duty", some (1/20), some "duty"⟩,
            ⟨some "Section 301", some (1/10), some "duty"⟩]⟩, none⟩]⟩⟩]⟩)).total_duty_rate = 3/20 ∧
      (call_global_compliance_api ⟨some "token", some 123⟩ "8517.62.00" (some "CN") (some "CN")
          100 5 "phone parts" "US" false "2026-01-01"
          (fun _ => .success ⟨some [⟨some ⟨some [⟨some ⟨some [⟨some "Base Duty", some (1/20), some "duty"⟩,
            ⟨some "Section 301", some (1/10), some "duty"⟩]⟩, none⟩]⟩⟩]⟩)).total_duty_amount =
        5 * 100 * (3/20)) :=
  C4_total_duty_rate_sum ⟨some "token", some 123⟩ "token" 123 "8517.62.00" (some "CN") (some "CN")
    100 5 "phone parts" "US" false "2026-01-01"
    ⟨some [⟨some ⟨some [⟨some ⟨some [⟨some "Base Duty", some (1/20), some "duty"⟩,
      ⟨some "Section 301", some (1/10), some "duty"⟩]⟩, none⟩]⟩⟩]⟩
    (fun _ => .success ⟨some [⟨some ⟨some [⟨some ⟨some [⟨some "Base Duty", some (1/20), some "duty"⟩,
      ⟨some "Section 301", some (1/10), some "duty"⟩]⟩, none⟩]⟩⟩]⟩)
    rfl rfl (fun _ => rfl)

/-- C8: the claim says the original request document is returned alongside
the result on success and on every failure path.  This is false for failures
raised before the payload is constructed: with AVALARA_TOKEN unset,
`get_avalara_auth_header` raises before the payload dict exists, and the
failure result carries request_payload = None. -/
theorem C8_counterexample :
    (call_global_compliance_api ⟨none, some 123⟩ "8517.62.00" (some "CN") (some "CN")
        100 5 "phone parts" "US" false "2026-01-01"
        (fun _ => .success ⟨none⟩)).success = false ∧
    (call_global_compliance_api ⟨none, some 123⟩ "8517.62.00" (some "CN") (some "CN")
        100 5 "phone parts" "US" false "2026-01-01"
        (fun _ => .success ⟨none⟩)).request_payload = none :=
  ⟨rfl, rfl⟩

/-- C8 (amended): whenever the configuration allows the request document to
be built (AVALARA_TOKEN set and a usable company id), the built payload is
returned alongside the result on success and on every failure of the HTTP
call itself; failures raised before the payload is constructed return a null
request payload. -/
theorem C8_payload_returned (env : AvalaraEnv) (tok : String) (cid : Int)
    (hs_code : String) (coo vendor_country : Option String) (cost qty : ℚ)
    (description import_country : String) (spi : Bool) (import_date : String)
    (http : GCPayload → HttpOutcome)
    (htok : env.AVALARA_TOKEN = some tok) (hcid : env.AVALARA_COMPANY_ID = some cid) :
    (call_global_compliance_api env hs_code coo vendor_country cost qty description
        import_country spi import_date http).request_payload =
      some (build_gc_payload cid hs_code coo vendor_country cost qty description
        import_country spi import_date) := by
  obtain ⟨tk, ci⟩ := env
  cases htok
  cases hcid
  rcases hh : http (build_gc_payload cid hs_code coo vendor_country cost qty description
      import_country spi import_date) with resp | ⟨sc, msg, body⟩ <;>
    simp [call_global_compliance_api, hh]

theorem C8_payload_returned_witness :
    (call_global_compliance_api ⟨some "token", some 123⟩ "8517.62.00" (some "CN") (some "CN")
        100 5 "phone parts" "US" false "2026-01-01"
        (fun _ => .requestError (some 401) "401 Client Error" none)).request_payload =
      some (build_gc_payload 123 "8517.62.00" (some "CN") (some "CN") 100 5 "phone parts"
        "US" false "2026-01-01") :=
  C8_payload_returned ⟨some "token", some 123⟩ "token" 123 "8517.62.00" (some "CN") (some "CN")
    100 5 "phone parts" "US" false "2026-01-01"
    (fun _ => .requestError (some 401) "401 Client Error" none) rfl rfl

/-- C10: the /calculate_vendor handler always sets the ship-from country of
the outbound compliance request to the country of origin of the request
body; a separately supplied vendor country in the body is never read, so the
result is unchanged under any value of that field and every payload the
handler sends has shipFrom.country equal to coo. -/
theorem C10_shipfrom_equals_coo (env : AvalaraEnv) (body : VendorCalcBody)
    (today : String) (http : GCPayload → HttpOutcome) (p : GCPayload)
    (hp : (calculate_vendor env body today http).request_payload = some p) :
    p.shipFrom.country = body.coo ∧
    (∀ vc2, calculate_vendor env { body with vendor_country := vc2 } today http =
      calculate_vendor env body today http) := by
  refine ⟨?_, fun vc2 => rfl⟩
  obtain ⟨tk, ci⟩ := env
  cases tk with
  | none => exact absurd hp (by simp [calculate_vendor, call_global_compliance_api])
  | some tok =>
    cases ci with
    | none => exact absurd hp (by simp [calculate_vendor, call_global_compliance_api])
    | some cid =>
      rcases hh : http (build_gc_payload cid (strip_dots body.hs_code) body.coo body.coo
          body.cost body.quantity body.description (body.import_country.getD "US")
          body.spi_applicable (body.import_date.getD today)) with resp | ⟨sc, msg, bd⟩ <;>
        · simp only [calculate_vendor, call_global_compliance_api, hh,
            Option.some.injEq] at hp
          subst hp
          rfl

theorem C10_shipfrom_equals_coo_witness :
    (build_gc_payload 123 (strip_dots "8517.62.00") (some "CN") (some "CN") 100 5
        "phone parts" "US" false "2026-01-01").shipFrom.country =
      (⟨"phone parts", "8517.62.00", some "CN", 100, 5, none, some "2026-01-01", false,
        some "DE"⟩ : VendorCalcBody).coo ∧
    (∀ vc2, calculate_vendor ⟨some "token", some 123⟩
        { (⟨"phone parts", "8517.62.00", some "CN", 100, 5, none, some "2026-01-01", false,
          some "DE"⟩ : VendorCalcBody) with vendor_country := vc2 } "2026-02-01"
        (fun _ => .success ⟨none⟩) =
      calculate_vendor ⟨some "token", some 123⟩
        ⟨"phone parts", "8517.62.00", some "CN", 100, 5, none, some "2026-01-01", false,
          some "DE"⟩ "2026-02-01" (fun _ => .success ⟨none⟩)) :=
  C10_shipfrom_equals_coo ⟨some "token", some 123⟩
    ⟨"phone parts", "8517.62.00", some "CN", 100, 5, none, some "2026-01-01", false, some "DE"⟩
    "2026-02-01" (fun _ => .success ⟨none⟩)
    (build_gc_payload 123 (strip_dots "8517.62.00") (some "CN") (some "CN") 100 5
      "phone parts" "US" false "2026-01-01") rfl

/-- C5: on the path where stage 1 answered with status 200 and the handler
did not short-circuit, the final HS code is resolved by priority: the
Avalara quote HS code when truthy, else the stage-1 HS6 code when present,
else an explicit HTTP 500 error stating that no HS code was found by either
stage. -/
theorem C5_resolution_priority (description text : String) (d : Option Stage1Data)
    (verify : Bool) (body : ApiResponse) (raw : Option String)
    (hdesc : description ≠ "")
    (hns : ¬ (extract_hs6 d = none ∧ verify = true))
    (hex : classify_extract_hs body = .ok raw) :
    (∀ h, truthy_str raw = some h →
      classify_hs description verify (.resp 200 text d) (.resp body) =
        ⟨200, some h, some "Classified via 3CEOnline + Avalara", false, none⟩) ∧
    (∀ h6, truthy_str raw = none → extract_hs6 d = some h6 →
      classify_hs description verify (.resp 200 text d) (.resp body) =
        ⟨200, some h6, some "Classified via 3CEOnline (HS6)", false, none⟩) ∧
    (truthy_str raw = none → extract_hs6 d = none →
      classify_hs description verify (.resp 200 text d) (.resp body) =
        ⟨500, none, none, false,
          some "No HS code found from either classification or quoting API"⟩) := by
  refine ⟨?_, ?_, ?_⟩
  · intro h hh
    simp [classify_hs, hdesc, hns, hex, hh]
  · intro h6 hraw hh6
    simp [classify_hs, hdesc, hns, hex, hraw, hh6]
  · intro hraw hh6
    have hv : verify = false := by
      cases verify
      · rfl
      · exact absurd ⟨hh6, rfl⟩ hns
    simp [classify_hs, hdesc, hex, hraw, hh6, hv]

theorem C5_resolution_priority_witness :
    (∀ h, truthy_str (some "8507.60.0010") = some h →
      classify_hs "widget" false (.resp 200 "ok" (some ⟨"850760", none⟩))
          (.resp ⟨some [⟨some ⟨some [⟨none, some "8507.60.0010"⟩]⟩⟩]⟩) =
        ⟨200, some h, some "Classified via 3CEOnline + Avalara", false, none⟩) ∧
    (∀ h6, truthy_str (some "8507.60.0010") = none → extract_hs6 (some ⟨"850760", none⟩) = some h6 →
      classify_hs "widget" false (.resp 200 "ok" (some ⟨"850760", none⟩))
          (.resp ⟨some [⟨some ⟨some [⟨none, some "8507.60.0010"⟩]⟩⟩]⟩) =
        ⟨200, some h6, some "Classified via 3CEOnline (HS6)", false, none⟩) ∧
    (truthy_str (some "8507.60.0010") = none → extract_hs6 (some ⟨"850760", none⟩) = none →
      classify_hs "widget" false (.resp 200 "ok" (some ⟨"850760", none⟩))
          (.resp ⟨some [⟨some ⟨some [⟨none, some "8507.60.0010"⟩]⟩⟩]⟩) =
        ⟨500, none, none, false,
          some "No HS code found from either classification or quoting API"⟩) :=
  C5_resolution_priority "widget" "ok" (some ⟨"850760", none⟩) false
    ⟨some [⟨some ⟨some [⟨none, some "8507.60.0010"⟩]⟩⟩]⟩ (some "8507.60.0010")
    (by decide) (by simp [extract_hs6]) rfl

/-- C6: whenever the verification flag is set and stage 1 produced no HS6
code, the classification handler returns, for every possible outcome of the
Avalara call, the same success-shaped response: HTTP 200 carrying the
verification-failure marker — so the Avalara quote service is never
consulted. -/
theorem C6_verification_short_circuit (description text : String)
    (d : Option Stage1Data) (avalara : AvalaraResult)
    (hdesc : description ≠ "") (hhs6 : extract_hs6 d = none) :
    classify_hs description true (.resp 200 text d) avalara =
      ⟨200, none, none, true,
        some "Description insufficient for classification - may require more specific details or interactive classification"⟩ := by
  simp [classify_hs, hdesc, hhs6]

theorem C6_verification_short_circuit_witness :
    classify_hs "widget" true (.resp 200 "needs interaction" (some ⟨"", some "q1"⟩))
        (.netError "unreachable") =
      ⟨200, none, none, true,
        some "Description insufficient for classification - may require more specific details or interactive classification"⟩ :=
  C6_verification_short_circuit "widget" "needs interaction" (some ⟨"", some "q1"⟩)
    (.netError "unreachable") (by decide) rfl

/-- C7: the duty-breakdown row set of the report is the union of duty-line
descriptions over all vendors (a description is a row iff some vendor has
it), listed sorted ascending without duplicates, and a vendor lacking a
given duty type gets the placeholder "N/A" in that cell. -/
theorem C7_duty_row_union (vendors : List XVendor) (dt : String) :
    (dt ∈ all_duty_types vendors ↔
      ∃ v ∈ vendors, ∃ dl ∈ v.duty_lines, dl.description = dt) ∧
    List.Sorted (· ≤ ·) (all_duty_types vendors) ∧
    (all_duty_types vendors).Nodup ∧
    (∀ v ∈ vendors, (∀ dl ∈ v.duty_lines, dl.description ≠ dt) →
      duty_cell v dt = "N/A") := by
  refine ⟨?_, List.sorted_insertionSort _ _,
    ((List.perm_insertionSort _ _).nodup_iff).mpr (List.nodup_dedup _), ?_⟩
  · simp [all_duty_types, List.mem_insertionSort, List.mem_dedup, List.mem_flatMap,
      List.mem_map]
  · intro v hv hnone
    have hfind : v.duty_lines.find? (fun dl => dl.description == dt) = none := by
      rw [List.find?_eq_none]
      intro dl hdl
      simpa using hnone dl hdl
    simp [duty_cell, hfind]

theorem C7_duty_row_union_witness :
    ("X" ∈ all_duty_types
        [⟨some "A", some "DE", some "DE", 100, 5, [⟨"X", 1/20, 5, "duty"⟩], some "5.00%", 25⟩,
         ⟨some "B", some "JP", some "JP", 100, 5, [⟨"Y", 1/10, 10, "duty"⟩], some "10.00%", 50⟩]) ∧
    ("Y" ∈ all_duty_types
        [⟨some "A", some "DE", some "DE", 100, 5, [⟨"X", 1/20, 5, "duty"⟩], some "5.00%", 25⟩,
         ⟨some "B", some "JP", some "JP", 100, 5, [⟨"Y", 1/10, 10, "duty"⟩], some "10.00%", 50⟩]) ∧
    duty_cell ⟨some "B", some "JP", some "JP", 100, 5, [⟨"Y", 1/10, 10, "duty"⟩], some "10.00%", 50⟩ "X" = "N/A" ∧
    duty_cell ⟨some "A", some "DE", some "DE", 100, 5, [⟨"X", 1/20, 5, "duty"⟩], some "5.00%", 25⟩ "Y" = "N/A" :=
  ⟨(C7_duty_row_union
      [⟨some "A", some "DE", some "DE", 100, 5, [⟨"X", 1/20, 5, "duty"⟩], some "5.00%", 25⟩,
       ⟨some "B", some "JP", some "JP", 100, 5, [⟨"Y", 1/10, 10, "duty"⟩], some "10.00%", 50⟩] "X").1.mpr
     ⟨⟨some "A", some "DE", some "DE", 100, 5, [⟨"X", 1/20, 5, "duty"⟩], some "5.00%", 25⟩,
       by simp, ⟨"X", 1/20, 5, "duty"⟩, by simp, rfl⟩,
   (C7_duty_row_union
      [⟨some "A", some "DE", some "DE", 100, 5, [⟨"X", 1/20, 5, "duty"⟩], some "5.00%", 25⟩,
       ⟨some "B", some "JP", some "JP", 100, 5, [⟨"Y", 1/10, 10, "duty"⟩], some "10.00%", 50⟩] "Y").1.mpr
     ⟨⟨some "B", some "JP", some "JP", 100, 5, [⟨"Y", 1/10, 10, "duty"⟩], some "10.00%", 50⟩,
       by simp, ⟨"Y", 1/10, 10, "duty"⟩, by simp, rfl⟩,
   (C7_duty_row_union
      [⟨some "A", some "DE", some "DE", 100, 5, [⟨"X", 1/20, 5, "duty"⟩], some "5.00%", 25⟩,
       ⟨some "B", some "JP", some "JP", 100, 5, [⟨"Y", 1/10, 10, "duty"⟩], some "10.00%", 50⟩] "X").2.2.2
     ⟨some "B", some "JP", some "JP", 100, 5, [⟨"Y", 1/10, 10, "duty"⟩], some "10.00%", 50⟩
     (by simp) (by simp),
   (C7_duty_row_union
      [⟨some "A", some "DE", some "DE", 100, 5, [⟨"X", 1/20, 5, "duty"⟩], some "5.00%", 25⟩,
       ⟨some "B", some "JP", some "JP", 100, 5, [⟨"Y", 1/10, 10, "duty"⟩], some "10.00%", 50⟩] "Y").2.2.2
     ⟨some "A", some "DE", some "DE", 100, 5, [⟨"X", 1/20, 5, "duty"⟩], some "5.00%", 25⟩
     (by simp) (by simp)⟩

end TariffModeling
